import Mathlib

/-!
Verification of the per-user document context lifecycle of the
"Ancient Language Researcher Backend" (src/main.py).

The embedding models the two global in-memory stores of the program —
the `users` list of registered (username, password) pairs and the
`user_contexts` dict mapping a username to its extracted document
text — and the HTTP handlers `sign`, `cancel_membership`, `login`,
`logout`, `upload` and `query` as pure functions threading that state.
HTTP exceptions (`raise HTTPException(status_code, detail)`) become an
`Except` error carrying the status and detail; external collaborators
(the PDF extraction library and the answering service) are parameters
of the functions that call them.

A Python `str` is a sequence of characters, embedded here as
`List Char` so that every operation the program performs on strings
(`lower`, `endswith`, `len`, slicing, concatenation) is an executable
structural function; a Lean string literal `s` denotes the Python
string `s.data`.
-/

namespace AncientLang

/-- A Python string: a sequence of characters. -/
abbrev PyStr := List Char

/-- `s.lower()` on the characters the program compares (the ASCII
letters of filename extensions). -/
def pyLower (s : PyStr) : PyStr := s.map Char.toLower

/-- `s.endswith(suffix)`. -/
def pyEndsWith (s suffix : PyStr) : Bool := List.isSuffixOf suffix s

/-- A registered user: the pydantic `User` model of src/main.py. -/
structure User where
  username : PyStr
  password : PyStr
deriving DecidableEq, Repr

/-- An HTTP error response: `HTTPException(status_code=..., detail=...)`. -/
structure HTTPError where
  status : Nat
  detail : PyStr
deriving DecidableEq, Repr

/-- The two global in-memory stores: the `users` list and the
`user_contexts` dict (modelled as an association list with the
first-match discipline of a Python dict; reachable states keep its
keys distinct, as a dict does). -/
structure ServerState where
  users : List User
  user_contexts : List (PyStr × PyStr)
deriving DecidableEq, Repr

/-- The state at process start: both stores empty. -/
def initState : ServerState := ⟨[], []⟩

/-- Dict read `d.get(k)`: the value at the first matching key, if any. -/
def lookupKey (k : PyStr) : List (PyStr × PyStr) → Option PyStr
  | [] => none
  | (k₁, v) :: rest => if k₁ = k then some v else lookupKey k rest

/-- Dict write `d[k] = v`: replace the value at the first matching key,
or append the binding if the key is absent. -/
def insertKey (k v : PyStr) : List (PyStr × PyStr) → List (PyStr × PyStr)
  | [] => [(k, v)]
  | (k₁, v₁) :: rest =>
      if k₁ = k then (k, v) :: rest else (k₁, v₁) :: insertKey k v rest

/-- Dict delete `del d[k]` guarded by `if k in d`: remove the first
matching binding, a no-op when the key is absent. -/
def eraseKey (k : PyStr) : List (PyStr × PyStr) → List (PyStr × PyStr)
  | [] => []
  | (k₁, v₁) :: rest =>
      if k₁ = k then rest else (k₁, v₁) :: eraseKey k rest

/-- `get_current_user` (src/main.py lines 34-44): read the `username`
cookie; fail 401 when it is missing or empty (Python `if not username`),
fail 401 when no registered user bears that name, otherwise return it.
The cookie is the session token. -/
def get_current_user (st : ServerState) (cookie : Option PyStr) :
    Except HTTPError PyStr :=
  match cookie with
  | none => .error ⟨401, "로그인이 필요합니다.".data⟩
  | some username =>
      if username = [] then .error ⟨401, "로그인이 필요합니다.".data⟩
      else if st.users.any (fun u => u.username == username) then .ok username
      else .error ⟨401, "유효하지 않은 사용자입니다.".data⟩

/-- `POST /sign` (lines 48-55): reject a duplicate username with 400,
otherwise append the new user. Returns the state after the call and
the outcome. -/
def sign (st : ServerState) (user : User) :
    ServerState × Except HTTPError PyStr :=
  if st.users.any (fun u => u.username == user.username) then
    (st, .error ⟨400, "이미 존재하는 아이디입니다.".data⟩)
  else
    ({ st with users := st.users ++ [user] },
     .ok ("환영합니다, ".data ++ user.username ++ "님! 고대 언어 연구소 가입 완료.".data))

/-- `POST /Cancel_membership` (lines 59-73): authenticate, then remove
every user with the resolved name from `users` and delete the name's
entry from `user_contexts` (cookie deletion is transport-level and not
part of the stored state). -/
def cancel_membership (st : ServerState) (cookie : Option PyStr) :
    ServerState × Except HTTPError PyStr :=
  match get_current_user st cookie with
  | .error e => (st, .error e)
  | .ok username =>
      ({ users := st.users.filter (fun u => !(u.username == username)),
         user_contexts := eraseKey username st.user_contexts },
       .ok "회원 탈퇴가 완료되었습니다. 데이터가 안전하게 파기되었습니다.".data)

/-- `POST /login` (lines 77-90): check an exact username/password match;
on success the response sets the `username` cookie (returned here as the
issued session token). No store is mutated. -/
def login (st : ServerState) (user : User) :
    Except HTTPError (PyStr × Option PyStr) :=
  if st.users.any (fun u => u.username == user.username &&
                            u.password == user.password) then
    .ok ("안녕하세요, ".data ++ user.username ++ " 연구원님.".data,
         some user.username)
  else
    .error ⟨401, "아이디 또는 비밀번호가 잘못되었습니다.".data⟩

/-- The success body of `POST /upload` (lines 135-141). -/
structure UploadResponse where
  ok : Bool
  user : PyStr
  message : PyStr
  text_length : Nat
  preview : PyStr
deriving DecidableEq, Repr

/-- `POST /upload` (lines 101-141): authenticate; reject a filename not
ending in ".pdf" after lowercasing (400); reject an empty byte stream
(400); run the external extraction collaborator `extract`, turning any
exception into a 500 carrying its message; on success overwrite the
caller's entry in `user_contexts` with the full extracted text and
report its length and the first 200 characters plus the "..." marker. -/
def upload (extract : List Nat → Except PyStr PyStr) (st : ServerState)
    (cookie : Option PyStr) (file_filename : Option PyStr)
    (pdf_bytes : List Nat) :
    ServerState × Except HTTPError UploadResponse :=
  match get_current_user st cookie with
  | .error e => (st, .error e)
  | .ok username =>
      if !(pyEndsWith (pyLower (file_filename.getD [])) ".pdf".data) then
        (st, .error ⟨400, "PDF 파일만 업로드 가능합니다".data⟩)
      else if pdf_bytes.isEmpty then
        (st, .error ⟨400, "빈 파일입니다".data⟩)
      else
        match extract pdf_bytes with
        | .error e => (st, .error ⟨500, "PDF 파싱 실패: ".data ++ e⟩)
        | .ok full_text =>
            ({ st with user_contexts :=
                 insertKey username full_text st.user_contexts },
             .ok { ok := true, user := username,
                   message := "고대 문서가 성공적으로 해독(Markdown 변환)되었습니다.".data,
                   text_length := full_text.length,
                   preview := full_text.take 200 ++ "...".data })

/-- A JSON value, as far as this backend inspects one: the answering
collaborator's payload is opaque, and the only value the backend builds
itself is a one-field object. -/
inductive Json where
  | str : PyStr → Json
  | obj : List (PyStr × Json) → Json

/-- The degraded answer payload built on a collaborator failure
(line 174): an object whose `answer` field is the apology with the
error detail in parentheses. -/
def apologyAnswer (e : PyStr) : Json :=
  .obj [("answer".data,
         .str ("죄송합니다. 인공지능 모델 서버에 연결할 수 없습니다. (".data ++ e ++ ")".data))]

/-- `llm_response` (lines 159-174): post `(query, context)` to the
answering collaborator; return its JSON unchanged, or the apology
payload if the request raises (unreachable server or error status,
via `raise_for_status`). -/
def llm_response (collab : PyStr → PyStr → Except PyStr Json)
    (query context : PyStr) : Json :=
  match collab query context with
  | .ok j => j
  | .error e => apologyAnswer e

/-- The success body of `POST /query` (lines 196-201). -/
structure QueryResponse where
  ok : Bool
  user : PyStr
  query : PyStr
  result : Json

/-- `POST /query` (lines 178-201): authenticate; read the caller's
context with `user_contexts.get`; fail 400 when it is `None` or the
empty string (Python `if not context`); otherwise forward the question
and the stored context to `llm_response` and wrap its result. No store
is mutated. -/
def query (collab : PyStr → PyStr → Except PyStr Json)
    (st : ServerState) (cookie : Option PyStr) (q : PyStr) :
    Except HTTPError QueryResponse :=
  match get_current_user st cookie with
  | .error e => .error e
  | .ok username =>
      match lookupKey username st.user_contexts with
      | none => .error ⟨400, "먼저 고대 문서를 업로드해주세요.".data⟩
      | some context =>
          if context = [] then .error ⟨400, "먼저 고대 문서를 업로드해주세요.".data⟩
          else .ok { ok := true, user := username, query := q,
                     result := llm_response collab q context }

/-- One client request, with the environment's behaviour (cookie sent,
extraction outcome) baked in, for reasoning about reachable states. -/
inductive Op where
  | sign (u : User)
  | cancel (cookie : Option PyStr)
  | login (u : User)
  | logout
  | upload (cookie : Option PyStr) (filename : Option PyStr)
      (bytes : List Nat) (extract : List Nat → Except PyStr PyStr)
  | query (cookie : Option PyStr) (q : PyStr)

/-- The state after serving one request (login, logout and query never
touch the stores). -/
def step (st : ServerState) : Op → ServerState
  | .sign u => (sign st u).1
  | .cancel c => (cancel_membership st c).1
  | .login _ => st
  | .logout => st
  | .upload c fn bytes ex => (upload ex st c fn bytes).1
  | .query _ _ => st

/-- The state after serving a sequence of requests. -/
def run (st : ServerState) (ops : List Op) : ServerState :=
  ops.foldl step st

/-- A user with the given name is registered. -/
def hasUser (st : ServerState) (name : PyStr) : Bool :=
  st.users.any (fun u => u.username == name)

/-- Every stored document context belongs to a currently registered
user. -/
def ctxOwned (st : ServerState) : Prop :=
  ∀ k, (lookupKey k st.user_contexts).isSome → hasUser st k = true

/-- The context store has at most one entry per username (the Python
dict guarantees this; here it is an invariant of reachable states). -/
def ctxKeysNodup (st : ServerState) : Prop :=
  (st.user_contexts.map Prod.fst).Nodup

/-- The one kind of request that can (re)introduce a username: a
successful registration of that very name. -/
def signsName (op : Op) (name : PyStr) : Bool :=
  match op with
  | .sign u => u.username == name
  | _ => false

/-- The two structural invariants of the stores: every context belongs
to a registered user, and the context dict has distinct keys. -/
def goodState (st : ServerState) : Prop := ctxOwned st ∧ ctxKeysNodup st


theorem lookupKey_insertKey_self (k v : PyStr) (l : List (PyStr × PyStr)) :
    lookupKey k (insertKey k v l) = some v := by
  induction l with
  | nil => simp [insertKey, lookupKey]
  | cons hd tl ih =>
      obtain ⟨k₁, v₁⟩ := hd
      by_cases h : k₁ = k
      · simp [insertKey, h, lookupKey]
      · simp only [insertKey, if_neg h, lookupKey, if_neg h]
        exact ih

theorem lookupKey_insertKey_ne (k k' v : PyStr) (l : List (PyStr × PyStr))
    (h : k' ≠ k) : lookupKey k' (insertKey k v l) = lookupKey k' l := by
  induction l with
  | nil => simp only [insertKey, lookupKey, if_neg (Ne.symm h)]
  | cons hd tl ih =>
      obtain ⟨k₁, v₁⟩ := hd
      by_cases h1 : k₁ = k
      · subst h1
        simp only [insertKey, if_pos rfl, lookupKey, if_neg (Ne.symm h)]
      · simp only [insertKey, if_neg h1, lookupKey]
        by_cases h2 : k₁ = k'
        · simp only [if_pos h2]
        · simp only [if_neg h2]
          exact ih

theorem lookupKey_eraseKey_ne (k k' : PyStr) (l : List (PyStr × PyStr))
    (h : k' ≠ k) : lookupKey k' (eraseKey k l) = lookupKey k' l := by
  induction l with
  | nil => rfl
  | cons hd tl ih =>
      obtain ⟨k₁, v₁⟩ := hd
      by_cases h1 : k₁ = k
      · subst h1
        have he : eraseKey k₁ ((k₁, v₁) :: tl) = tl := by simp [eraseKey]
        rw [he]
        simp only [lookupKey, if_neg (Ne.symm h)]
      · simp only [eraseKey, if_neg h1, lookupKey]
        by_cases h2 : k₁ = k'
        · simp only [if_pos h2]
        · simp only [if_neg h2]
          exact ih

theorem lookupKey_eq_none_of_not_mem (k : PyStr) (l : List (PyStr × PyStr))
    (h : k ∉ l.map Prod.fst) : lookupKey k l = none := by
  induction l with
  | nil => rfl
  | cons hd tl ih =>
      obtain ⟨k₁, v₁⟩ := hd
      simp only [List.map_cons, List.mem_cons, not_or] at h
      have h1 : ¬(k₁ = k) := fun hh => h.1 hh.symm
      simp only [lookupKey, if_neg h1]
      exact ih h.2

theorem eraseKey_sublist (k : PyStr) (l : List (PyStr × PyStr)) :
    (eraseKey k l).Sublist l := by
  induction l with
  | nil => simp [eraseKey]
  | cons hd tl ih =>
      obtain ⟨k₁, v₁⟩ := hd
      by_cases h : k₁ = k
      · simp only [eraseKey, if_pos h]
        exact List.sublist_cons_self _ _
      · simp only [eraseKey, if_neg h]
        exact List.Sublist.cons₂ _ ih

theorem lookupKey_eraseKey_self (k : PyStr) (l : List (PyStr × PyStr))
    (h : (l.map Prod.fst).Nodup) : lookupKey k (eraseKey k l) = none := by
  induction l with
  | nil => rfl
  | cons hd tl ih =>
      obtain ⟨k₁, v₁⟩ := hd
      simp only [List.map_cons, List.nodup_cons] at h
      by_cases h1 : k₁ = k
      · subst h1
        simp only [eraseKey, if_pos rfl]
        exact lookupKey_eq_none_of_not_mem _ _ h.1
      · simp only [eraseKey, if_neg h1, lookupKey, if_neg h1]
        exact ih h.2

theorem mem_keys_insertKey (a k v : PyStr) (l : List (PyStr × PyStr)) :
    a ∈ (insertKey k v l).map Prod.fst ↔ a = k ∨ a ∈ l.map Prod.fst := by
  induction l with
  | nil => simp [insertKey]
  | cons hd tl ih =>
      obtain ⟨k₁, v₁⟩ := hd
      by_cases h : k₁ = k
      · subst h
        simp [insertKey]
      · simp only [insertKey, if_neg h, List.map_cons, List.mem_cons, ih]
        tauto

theorem keys_insertKey_nodup (k v : PyStr) (l : List (PyStr × PyStr))
    (h : (l.map Prod.fst).Nodup) : ((insertKey k v l).map Prod.fst).Nodup := by
  induction l with
  | nil => simp [insertKey]
  | cons hd tl ih =>
      obtain ⟨k₁, v₁⟩ := hd
      simp only [List.map_cons, List.nodup_cons] at h
      by_cases h1 : k₁ = k
      · subst h1
        have he : insertKey k₁ v ((k₁, v₁) :: tl) = (k₁, v) :: tl := by
          simp [insertKey]
        rw [he, List.map_cons, List.nodup_cons]
        exact ⟨h.1, h.2⟩
      · simp only [insertKey, if_neg h1, List.map_cons, List.nodup_cons,
          mem_keys_insertKey]
        refine ⟨?_, ih h.2⟩
        rintro (rfl | hmem)
        · exact h1 rfl
        · exact h.1 hmem


theorem get_current_user_ok {st : ServerState} {c : Option PyStr} {u : PyStr}
    (h : get_current_user st c = .ok u) :
    c = some u ∧ u ≠ [] ∧ hasUser st u = true := by
  cases c with
  | none => simp [get_current_user] at h
  | some name =>
      by_cases h1 : name = []
      · simp [get_current_user, h1] at h
      · by_cases h2 : st.users.any (fun v => v.username == name) = true
        · have h3 : name = u := by
            simpa [get_current_user, h1, h2] using h
          subst h3
          exact ⟨rfl, h1, h2⟩
        · simp [get_current_user, h1, h2] at h

theorem get_current_user_intro (st : ServerState) (u : PyStr)
    (h1 : u ≠ []) (h2 : hasUser st u = true) :
    get_current_user st (some u) = .ok u := by
  unfold hasUser at h2
  simp [get_current_user, h1, h2]

theorem get_current_user_not_found (st : ServerState) (u : PyStr)
    (h1 : u ≠ []) (h2 : hasUser st u = false) :
    get_current_user st (some u) = .error ⟨401, "유효하지 않은 사용자입니다.".data⟩ := by
  unfold hasUser at h2
  simp [get_current_user, h1, h2]

theorem upload_users_eq (ex : List Nat → Except PyStr PyStr) (st : ServerState)
    (c fn : Option PyStr) (bytes : List Nat) :
    (upload ex st c fn bytes).1.users = st.users := by
  unfold upload
  split
  · rfl
  · split
    · rfl
    · split
      · rfl
      · split <;> rfl

theorem upload_error_state (ex : List Nat → Except PyStr PyStr)
    (st : ServerState) (c fn : Option PyStr) (bytes : List Nat) :
    (upload ex st c fn bytes).1 = st ∨
      ∃ r, (upload ex st c fn bytes).2 = .ok r := by
  unfold upload
  split
  · exact Or.inl rfl
  · split
    · exact Or.inl rfl
    · split
      · exact Or.inl rfl
      · split
        · exact Or.inl rfl
        · exact Or.inr ⟨_, rfl⟩

theorem upload_ok_eq (ex : List Nat → Except PyStr PyStr) (st : ServerState)
    (c fn : Option PyStr) (bytes : List Nat) (u ft : PyStr)
    (hu : get_current_user st c = .ok u)
    (hfn : pyEndsWith (pyLower (fn.getD [])) ".pdf".data = true)
    (hb : bytes.isEmpty = false)
    (hex : ex bytes = .ok ft) :
    upload ex st c fn bytes =
      ({ st with user_contexts := insertKey u ft st.user_contexts },
       .ok { ok := true, user := u,
             message := "고대 문서가 성공적으로 해독(Markdown 변환)되었습니다.".data,
             text_length := ft.length,
             preview := ft.take 200 ++ "...".data }) := by
  unfold upload
  rw [hu]
  simp only [hfn, Bool.not_true, Bool.false_eq_true, if_false, hb, hex]

theorem upload_auth_error (ex : List Nat → Except PyStr PyStr)
    (st : ServerState) (c fn : Option PyStr) (bytes : List Nat) (e : HTTPError)
    (hu : get_current_user st c = .error e) :
    upload ex st c fn bytes = (st, .error e) := by
  unfold upload
  rw [hu]

theorem upload_bad_extension (ex : List Nat → Except PyStr PyStr)
    (st : ServerState) (c fn : Option PyStr) (bytes : List Nat) (u : PyStr)
    (hu : get_current_user st c = .ok u)
    (hfn : pyEndsWith (pyLower (fn.getD [])) ".pdf".data = false) :
    upload ex st c fn bytes =
      (st, .error ⟨400, "PDF 파일만 업로드 가능합니다".data⟩) := by
  unfold upload
  rw [hu]
  simp only [hfn, Bool.not_false, if_true]


theorem upload_empty_bytes (ex : List Nat → Except PyStr PyStr)
    (st : ServerState) (c fn : Option PyStr) (bytes : List Nat) (u : PyStr)
    (hu : get_current_user st c = .ok u)
    (hfn : pyEndsWith (pyLower (fn.getD [])) ".pdf".data = true)
    (hb : bytes.isEmpty = true) :
    upload ex st c fn bytes = (st, .error ⟨400, "빈 파일입니다".data⟩) := by
  unfold upload
  rw [hu]
  simp only [hfn, Bool.not_true, Bool.false_eq_true, if_false, hb, if_true]

theorem upload_extract_error (ex : List Nat → Except PyStr PyStr)
    (st : ServerState) (c fn : Option PyStr) (bytes : List Nat) (u e : PyStr)
    (hu : get_current_user st c = .ok u)
    (hfn : pyEndsWith (pyLower (fn.getD [])) ".pdf".data = true)
    (hb : bytes.isEmpty = false)
    (hex : ex bytes = .error e) :
    upload ex st c fn bytes =
      (st, .error ⟨500, "PDF 파싱 실패: ".data ++ e⟩) := by
  unfold upload
  rw [hu]
  simp only [hfn, Bool.not_true, Bool.false_eq_true, if_false, hb, hex]

theorem sign_duplicate (st : ServerState) (user : User)
    (h : hasUser st user.username = true) :
    sign st user = (st, .error ⟨400, "이미 존재하는 아이디입니다.".data⟩) := by
  unfold hasUser at h
  simp [sign, h]

theorem sign_ok (st : ServerState) (user : User)
    (h : hasUser st user.username = false) :
    sign st user =
      ({ st with users := st.users ++ [user] },
       .ok ("환영합니다, ".data ++ user.username ++
            "님! 고대 언어 연구소 가입 완료.".data)) := by
  unfold hasUser at h
  simp [sign, h]

theorem sign_ok_elim {st : ServerState} {user : User} {st₁ : ServerState}
    {m : PyStr} (h : sign st user = (st₁, .ok m)) :
    st₁ = { st with users := st.users ++ [user] } ∧
      hasUser st user.username = false := by
  cases h1 : hasUser st user.username with
  | true =>
      rw [sign_duplicate st user h1] at h
      exact absurd (congrArg Prod.snd h) (by simp)
  | false =>
      rw [sign_ok st user h1] at h
      exact ⟨(congrArg Prod.fst h).symm, rfl⟩

theorem cancel_ok (st : ServerState) (c : Option PyStr) (u : PyStr)
    (hu : get_current_user st c = .ok u) :
    cancel_membership st c =
      ({ users := st.users.filter (fun v => !(v.username == u)),
         user_contexts := eraseKey u st.user_contexts },
       .ok "회원 탈퇴가 완료되었습니다. 데이터가 안전하게 파기되었습니다.".data) := by
  unfold cancel_membership
  rw [hu]

theorem cancel_auth_error (st : ServerState) (c : Option PyStr) (e : HTTPError)
    (hu : get_current_user st c = .error e) :
    cancel_membership st c = (st, .error e) := by
  unfold cancel_membership
  rw [hu]

theorem query_auth_error (collab : PyStr → PyStr → Except PyStr Json)
    (st : ServerState) (c : Option PyStr) (q : PyStr) (e : HTTPError)
    (hu : get_current_user st c = .error e) :
    query collab st c q = .error e := by
  unfold query
  rw [hu]

theorem query_no_context (collab : PyStr → PyStr → Except PyStr Json)
    (st : ServerState) (c : Option PyStr) (q u : PyStr)
    (hu : get_current_user st c = .ok u)
    (hl : lookupKey u st.user_contexts = none) :
    query collab st c q = .error ⟨400, "먼저 고대 문서를 업로드해주세요.".data⟩ := by
  simp [query, hu, hl]

theorem query_empty_context (collab : PyStr → PyStr → Except PyStr Json)
    (st : ServerState) (c : Option PyStr) (q u : PyStr)
    (hu : get_current_user st c = .ok u)
    (hl : lookupKey u st.user_contexts = some []) :
    query collab st c q = .error ⟨400, "먼저 고대 문서를 업로드해주세요.".data⟩ := by
  simp [query, hu, hl]

theorem query_ok (collab : PyStr → PyStr → Except PyStr Json)
    (st : ServerState) (c : Option PyStr) (q u ctx : PyStr)
    (hu : get_current_user st c = .ok u)
    (hl : lookupKey u st.user_contexts = some ctx) (hne : ctx ≠ []) :
    query collab st c q =
      .ok { ok := true, user := u, query := q,
            result := llm_response collab q ctx } := by
  simp [query, hu, hl, hne]

theorem llm_response_ok (collab : PyStr → PyStr → Except PyStr Json)
    (q ctx : PyStr) (j : Json) (h : collab q ctx = .ok j) :
    llm_response collab q ctx = j := by
  unfold llm_response
  rw [h]

theorem llm_response_error (collab : PyStr → PyStr → Except PyStr Json)
    (q ctx e : PyStr) (h : collab q ctx = .error e) :
    llm_response collab q ctx = apologyAnswer e := by
  unfold llm_response
  rw [h]

theorem any_username_filter_self (users : List User) (name : PyStr) :
    ((users.filter fun u => !(u.username == name)).any
      fun u => u.username == name) = false := by
  rw [List.any_eq_false]
  intro u hu
  rw [List.mem_filter] at hu
  simpa using hu.2

theorem any_username_filter_ne (users : List User) (name k : PyStr)
    (h : (users.any fun u => u.username == k) = true) (hk : k ≠ name) :
    ((users.filter fun u => !(u.username == name)).any
      fun u => u.username == k) = true := by
  rw [List.any_eq_true] at h ⊢
  obtain ⟨u, hmem, hu⟩ := h
  refine ⟨u, ?_, hu⟩
  rw [List.mem_filter]
  refine ⟨hmem, ?_⟩
  have h2 : u.username = k := by simpa using hu
  simp [h2, hk]


theorem hasUser_step_false (st : ServerState) (op : Op) (name : PyStr)
    (h : hasUser st name = false) (hop : signsName op name = false) :
    hasUser (step st op) name = false := by
  cases op with
  | sign u =>
      simp only [step]
      cases h1 : hasUser st u.username with
      | true =>
          rw [sign_duplicate st u h1]
          exact h
      | false =>
          rw [sign_ok st u h1]
          unfold hasUser at h ⊢
          have hop₂ : (u.username == name) = false := by
            simpa [signsName] using hop
          simp only [List.any_append, h, List.any_cons, List.any_nil,
            Bool.or_false, Bool.false_or, hop₂]
  | cancel c =>
      simp only [step]
      cases hgcu : get_current_user st c with
      | error e =>
          rw [cancel_auth_error st c e hgcu]
          exact h
      | ok w =>
          rw [cancel_ok st c w hgcu]
          unfold hasUser at h ⊢
          rw [List.any_eq_false] at h ⊢
          intro x hx
          exact h x (List.mem_of_mem_filter hx)
  | login u => exact h
  | logout => exact h
  | upload c fn bytes ex =>
      simp only [step]
      unfold hasUser
      rw [upload_users_eq]
      exact h
  | query c q => exact h

theorem hasUser_run_false (ops : List Op) (st : ServerState) (name : PyStr)
    (h : hasUser st name = false)
    (hops : ∀ op ∈ ops, signsName op name = false) :
    hasUser (run st ops) name = false := by
  induction ops generalizing st with
  | nil => exact h
  | cons op rest ih =>
      exact ih (step st op)
        (hasUser_step_false st op name h (hops op (List.mem_cons_self op rest)))
        (fun o ho => hops o (List.mem_cons_of_mem op ho))

theorem goodState_init : goodState initState := by
  constructor
  · intro k hk
    simp [lookupKey, initState] at hk
  · simp [ctxKeysNodup, initState]

theorem goodState_step (st : ServerState) (op : Op) (h : goodState st) :
    goodState (step st op) := by
  obtain ⟨how, hnd⟩ := h
  cases op with
  | sign u =>
      cases h1 : hasUser st u.username with
      | true =>
          simp only [step]
          rw [sign_duplicate st u h1]
          exact ⟨how, hnd⟩
      | false =>
          simp only [step]
          rw [sign_ok st u h1]
          constructor
          · intro k hk
            have h2 := how k hk
            unfold hasUser at h2 ⊢
            simp only [List.any_append, h2, Bool.true_or]
          · exact hnd
  | cancel c =>
      cases hgcu : get_current_user st c with
      | error e =>
          simp only [step]
          rw [cancel_auth_error st c e hgcu]
          exact ⟨how, hnd⟩
      | ok w =>
          simp only [step]
          rw [cancel_ok st c w hgcu]
          constructor
          · intro k hk
            by_cases hkw : k = w
            · subst hkw
              rw [lookupKey_eraseKey_self k _ hnd] at hk
              simp at hk
            · rw [lookupKey_eraseKey_ne w k _ hkw] at hk
              have h2 := how k hk
              unfold hasUser at h2 ⊢
              exact any_username_filter_ne st.users w k h2 hkw
          · unfold ctxKeysNodup at hnd ⊢
            exact List.Nodup.sublist
              ((eraseKey_sublist w st.user_contexts).map Prod.fst) hnd
  | login u => exact ⟨how, hnd⟩
  | logout => exact ⟨how, hnd⟩
  | upload c fn bytes ex =>
      simp only [step]
      cases hgcu : get_current_user st c with
      | error e =>
          rw [upload_auth_error ex st c fn bytes e hgcu]
          exact ⟨how, hnd⟩
      | ok u =>
          cases hfn : pyEndsWith (pyLower (fn.getD [])) ".pdf".data with
          | false =>
              rw [upload_bad_extension ex st c fn bytes u hgcu hfn]
              exact ⟨how, hnd⟩
          | true =>
              cases hb : bytes.isEmpty with
              | true =>
                  rw [upload_empty_bytes ex st c fn bytes u hgcu hfn hb]
                  exact ⟨how, hnd⟩
              | false =>
                  cases hex : ex bytes with
                  | error e =>
                      rw [upload_extract_error ex st c fn bytes u e hgcu hfn hb hex]
                      exact ⟨how, hnd⟩
                  | ok ft =>
                      rw [upload_ok_eq ex st c fn bytes u ft hgcu hfn hb hex]
                      constructor
                      · intro k hk
                        by_cases hku : k = u
                        · subst hku
                          exact (get_current_user_ok hgcu).2.2
                        · rw [lookupKey_insertKey_ne u k ft _ hku] at hk
                          exact how k hk
                      · exact keys_insertKey_nodup u ft _ hnd
  | query c q => exact ⟨how, hnd⟩

theorem goodState_run (ops : List Op) : ∀ st, goodState st →
    goodState (run st ops) := by
  induction ops with
  | nil => exact fun st h => h
  | cons op rest ih => exact fun st h => ih (step st op) (goodState_step st op h)

theorem goodState_reachable (ops : List Op) : goodState (run initState ops) :=
  goodState_run ops initState goodState_init


/-- C1 (counterexample): an unauthenticated caller uploading
`notes.txt` fails with the 401 Unauthenticated error, not with the 400
UnsupportedFormat error — the authentication check runs before the
extension check, so the claimed "UnsupportedFormat regardless of
authentication state" is false. -/
theorem C1_counterexample :
    (upload (fun _ => .ok ("T".data)) initState none
        (some ("notes.txt".data)) [1]).2
      = .error ⟨401, "로그인이 필요합니다.".data⟩ ∧
    (upload (fun _ => .ok ("T".data)) initState none
        (some ("notes.txt".data)) [1]).2
      ≠ .error ⟨400, "PDF 파일만 업로드 가능합니다".data⟩ := by
  refine ⟨rfl, ?_⟩
  have h1 : (upload (fun _ => .ok ("T".data)) initState none
      (some ("notes.txt".data)) [1]).2
      = .error ⟨401, "로그인이 필요합니다.".data⟩ := rfl
  rw [h1]
  intro h
  have h2 := congrArg (fun r => match r with
    | Except.error e => e.status
    | Except.ok _ => 0) h
  simp at h2

/-- C1 (amended): an upload whose filename does not end (after
lowercasing) with ".pdf" never mutates the stores, whatever the
authentication state; and when the caller is authenticated it fails
with the 400 UnsupportedFormat error. (An unauthenticated caller fails
with 401 Unauthenticated instead, the stores still untouched.) -/
theorem C1_amended (extract : List Nat → Except PyStr PyStr)
    (st : ServerState) (cookie fn : Option PyStr) (bytes : List Nat)
    (hfn : pyEndsWith (pyLower (fn.getD [])) ".pdf".data = false) :
    (upload extract st cookie fn bytes).1 = st ∧
    (∀ u, get_current_user st cookie = .ok u →
      (upload extract st cookie fn bytes).2 =
        .error ⟨400, "PDF 파일만 업로드 가능합니다".data⟩) := by
  constructor
  · cases hgcu : get_current_user st cookie with
    | error e => rw [upload_auth_error extract st cookie fn bytes e hgcu]
    | ok u => rw [upload_bad_extension extract st cookie fn bytes u hgcu hfn]
  · intro u hu
    rw [upload_bad_extension extract st cookie fn bytes u hu hfn]

/-- C1 witness: an authenticated caller uploading `notes.txt` gets the
400 UnsupportedFormat error. -/
theorem C1_witness :
    (upload (fun _ => .ok ("T".data)) ⟨[⟨"alice".data, "pw".data⟩], []⟩
        (some ("alice".data)) (some ("notes.txt".data)) [1]).2 =
      .error ⟨400, "PDF 파일만 업로드 가능합니다".data⟩ :=
  (C1_amended (fun _ => .ok ("T".data)) ⟨[⟨"alice".data, "pw".data⟩], []⟩
      (some ("alice".data)) (some ("notes.txt".data)) [1] rfl).2
    ("alice".data) rfl

/-- C2 (counterexample): an identity whose stored Document Context is
the empty string still gets the NoContext failure from query, although
a context for it exists in the store — Python's `if not context` treats
the empty string as absent, so "fails with NoContext iff the identity
has no Document Context" is false. -/
theorem C2_counterexample :
    lookupKey ("alice".data)
        (ServerState.user_contexts
          ⟨[⟨"alice".data, "pw".data⟩], [("alice".data, [])]⟩)
      = some [] ∧
    query (fun _ _ => .ok (.str ("A".data)))
        ⟨[⟨"alice".data, "pw".data⟩], [("alice".data, [])]⟩
        (some ("alice".data)) ("q".data)
      = .error ⟨400, "먼저 고대 문서를 업로드해주세요.".data⟩ :=
  ⟨rfl, rfl⟩

/-- C2 (amended): for an authenticated identity, query fails with the
NoContext error if and only if the identity has no Document Context in
the store or its stored context is the empty string. -/
theorem C2_amended (collab : PyStr → PyStr → Except PyStr Json)
    (st : ServerState) (cookie : Option PyStr) (q u : PyStr)
    (hu : get_current_user st cookie = .ok u) :
    (query collab st cookie q =
        .error ⟨400, "먼저 고대 문서를 업로드해주세요.".data⟩) ↔
      (lookupKey u st.user_contexts = none ∨
       lookupKey u st.user_contexts = some []) := by
  constructor
  · intro h
    cases hl : lookupKey u st.user_contexts with
    | none => exact Or.inl rfl
    | some ctx =>
        by_cases hc : ctx = []
        · subst hc
          exact Or.inr rfl
        · rw [query_ok collab st cookie q u ctx hu hl hc] at h
          exact absurd h (by simp)
  · rintro (hl | hl)
    · exact query_no_context collab st cookie q u hu hl
    · exact query_empty_context collab st cookie q u hu hl

/-- C2 witness: an authenticated user who never uploaded gets the
NoContext failure. -/
theorem C2_witness :
    query (fun _ _ => .ok (.str ("A".data)))
        ⟨[⟨"alice".data, "pw".data⟩], []⟩ (some ("alice".data)) ("q".data)
      = .error ⟨400, "먼저 고대 문서를 업로드해주세요.".data⟩ :=
  (C2_amended (fun _ _ => .ok (.str ("A".data)))
      ⟨[⟨"alice".data, "pw".data⟩], []⟩ (some ("alice".data)) ("q".data)
      ("alice".data) rfl).mpr (Or.inl rfl)

/-- C3: a successful ingestion by identity u with extracted text T
unconditionally replaces u's Document Context with T (the store equals
an insert-or-overwrite of u's entry, and reading u's entry afterwards
yields exactly T), and the response carries text_length equal to T's
character length and a preview equal to T's first 200 characters with
the "..." truncation marker appended. -/
theorem C3_upload_replaces_context (extract : List Nat → Except PyStr PyStr)
    (st : ServerState) (cookie fn : Option PyStr) (bytes : List Nat)
    (u T : PyStr)
    (hu : get_current_user st cookie = .ok u)
    (hfn : pyEndsWith (pyLower (fn.getD [])) ".pdf".data = true)
    (hb : bytes.isEmpty = false)
    (hex : extract bytes = .ok T) :
    (upload extract st cookie fn bytes).1.user_contexts
        = insertKey u T st.user_contexts ∧
    lookupKey u (upload extract st cookie fn bytes).1.user_contexts
        = some T ∧
    (upload extract st cookie fn bytes).2 =
      .ok { ok := true, user := u,
            message := "고대 문서가 성공적으로 해독(Markdown 변환)되었습니다.".data,
            text_length := T.length,
            preview := T.take 200 ++ "...".data } := by
  rw [upload_ok_eq extract st cookie fn bytes u T hu hfn hb hex]
  exact ⟨rfl, lookupKey_insertKey_self u T st.user_contexts, rfl⟩

/-- C3 witness: uploading over an existing context replaces it. -/
theorem C3_witness :
    lookupKey ("alice".data)
        ((upload (fun _ => .ok ("NEW".data))
            ⟨[⟨"alice".data, "pw".data⟩], [("alice".data, "OLD".data)]⟩
            (some ("alice".data)) (some ("Doc.PDF".data)) [7]).1.user_contexts)
      = some ("NEW".data) :=
  (C3_upload_replaces_context (fun _ => .ok ("NEW".data))
      ⟨[⟨"alice".data, "pw".data⟩], [("alice".data, "OLD".data)]⟩
      (some ("alice".data)) (some ("Doc.PDF".data)) [7]
      ("alice".data) ("NEW".data) rfl rfl rfl rfl).2.1

/-- C8: registering a username a second time while its Identity exists
fails with the 400 AlreadyExists error and returns the state of the
first registration unchanged (Identity list and Context map). -/
theorem C8_duplicate_registration (st₀ : ServerState) (u₁ : User)
    (st₁ : ServerState) (m p₂ : PyStr)
    (h : sign st₀ u₁ = (st₁, .ok m)) :
    sign st₁ ⟨u₁.username, p₂⟩ =
      (st₁, .error ⟨400, "이미 존재하는 아이디입니다.".data⟩) := by
  obtain ⟨hst, hfresh⟩ := sign_ok_elim h
  subst hst
  apply sign_duplicate
  unfold hasUser
  simp [List.any_append]

/-- C8 witness: registering "alice" twice fails the second time with
AlreadyExists and leaves the state of the first registration. -/
theorem C8_witness :
    sign ⟨[⟨"alice".data, "pw".data⟩], []⟩ ⟨"alice".data, "pw2".data⟩ =
      (⟨[⟨"alice".data, "pw".data⟩], []⟩,
       .error ⟨400, "이미 존재하는 아이디입니다.".data⟩) :=
  C8_duplicate_registration initState ⟨"alice".data, "pw".data⟩
    ⟨[⟨"alice".data, "pw".data⟩], []⟩
    ("환영합니다, ".data ++ "alice".data ++ "님! 고대 언어 연구소 가입 완료.".data)
    ("pw2".data) rfl

/-- C9: every failing upload — Unauthenticated, UnsupportedFormat,
EmptyInput or ExtractionError — leaves the whole state (hence every
user's Document Context) unchanged. -/
theorem C9_failed_upload_frame (extract : List Nat → Except PyStr PyStr)
    (st : ServerState) (cookie fn : Option PyStr) (bytes : List Nat)
    (e : HTTPError)
    (h : (upload extract st cookie fn bytes).2 = .error e) :
    (upload extract st cookie fn bytes).1 = st := by
  rcases upload_error_state extract st cookie fn bytes with h1 | ⟨r, h2⟩
  · exact h1
  · rw [h2] at h
    exact absurd h (by simp)

/-- C9 witness: a failing (unauthenticated) upload leaves another
user's stored context intact. -/
theorem C9_witness :
    (upload (fun _ => .ok ("X".data)) ⟨[], [("bob".data, "T".data)]⟩ none
        (some ("a.pdf".data)) [1]).1 = ⟨[], [("bob".data, "T".data)]⟩ :=
  C9_failed_upload_frame (fun _ => .ok ("X".data))
    ⟨[], [("bob".data, "T".data)]⟩ none (some ("a.pdf".data)) [1]
    ⟨401, "로그인이 필요합니다.".data⟩ rfl

/-- C10: when extraction succeeds with the empty string, upload still
succeeds, installs the empty string as the identity's Document Context,
and returns text_length 0 with a preview that is the "..." truncation
marker alone. -/
theorem C10_empty_text_upload (extract : List Nat → Except PyStr PyStr)
    (st : ServerState) (cookie fn : Option PyStr) (bytes : List Nat)
    (u : PyStr)
    (hu : get_current_user st cookie = .ok u)
    (hfn : pyEndsWith (pyLower (fn.getD [])) ".pdf".data = true)
    (hb : bytes.isEmpty = false)
    (hex : extract bytes = .ok []) :
    (upload extract st cookie fn bytes).1.user_contexts
        = insertKey u [] st.user_contexts ∧
    lookupKey u (upload extract st cookie fn bytes).1.user_contexts
        = some [] ∧
    (upload extract st cookie fn bytes).2 =
      .ok { ok := true, user := u,
            message := "고대 문서가 성공적으로 해독(Markdown 변환)되었습니다.".data,
            text_length := 0,
            preview := "...".data } := by
  rw [upload_ok_eq extract st cookie fn bytes u [] hu hfn hb hex]
  exact ⟨rfl, lookupKey_insertKey_self u [] st.user_contexts, rfl⟩

/-- C10 witness: uploading a document that extracts to the empty string
succeeds with length 0 and the bare truncation marker. -/
theorem C10_witness :
    (upload (fun _ => .ok []) ⟨[⟨"alice".data, "pw".data⟩], []⟩
        (some ("alice".data)) (some ("a.pdf".data)) [1]).2 =
      .ok { ok := true, user := "alice".data,
            message := "고대 문서가 성공적으로 해독(Markdown 변환)되었습니다.".data,
            text_length := 0,
            preview := "...".data } :=
  (C10_empty_text_upload (fun _ => .ok [])
      ⟨[⟨"alice".data, "pw".data⟩], []⟩ (some ("alice".data))
      (some ("a.pdf".data)) [1] ("alice".data) rfl rfl rfl rfl).2.2


theorem hasUser_users_append_self (st : ServerState) (l : List User)
    (u p : PyStr) :
    hasUser { st with users := l ++ [⟨u, p⟩] } u = true := by
  unfold hasUser
  simp [List.any_append]

/-- C4: after a successful deregistration of username u, every
session-authenticated request presenting the old token (the `username`
cookie for u) fails with 401 Unauthenticated — query fails so, and
upload fails so leaving the state untouched — and this persists across
any further requests none of which registers u again; as soon as u is
registered again, the old token resolves once more. -/
theorem C4_token_invalid_after_deregistration
    (st : ServerState) (u : PyStr) (st₁ : ServerState) (m : PyStr)
    (hcancel : cancel_membership st (some u) = (st₁, .ok m))
    (ops : List Op) (hops : ∀ op ∈ ops, signsName op u = false) :
    (∀ collab q, query collab (run st₁ ops) (some u) q =
        .error ⟨401, "유효하지 않은 사용자입니다.".data⟩) ∧
    (∀ extract fn bytes, upload extract (run st₁ ops) (some u) fn bytes =
        (run st₁ ops, .error ⟨401, "유효하지 않은 사용자입니다.".data⟩)) ∧
    (∀ p st₂ m₂, sign (run st₁ ops) ⟨u, p⟩ = (st₂, .ok m₂) →
        get_current_user st₂ (some u) = .ok u) := by
  cases hgcu : get_current_user st (some u) with
  | error e =>
      rw [cancel_auth_error st (some u) e hgcu] at hcancel
      exact absurd (congrArg Prod.snd hcancel) (by simp)
  | ok w =>
      obtain ⟨hc, hne, _⟩ := get_current_user_ok hgcu
      have hwu : w = u := (Option.some.inj hc).symm
      subst hwu
      rw [cancel_ok st (some w) w hgcu] at hcancel
      have hst₁ : st₁ =
          ({ users := st.users.filter (fun v => !(v.username == w)),
             user_contexts := eraseKey w st.user_contexts } : ServerState) :=
        (congrArg Prod.fst hcancel).symm
      have h₁ : hasUser st₁ w = false := by
        rw [hst₁]
        unfold hasUser
        exact any_username_filter_self st.users w
      have h₂ : hasUser (run st₁ ops) w = false :=
        hasUser_run_false ops st₁ w h₁ hops
      have h₃ : get_current_user (run st₁ ops) (some w) =
          .error ⟨401, "유효하지 않은 사용자입니다.".data⟩ :=
        get_current_user_not_found (run st₁ ops) w hne h₂
      refine ⟨?_, ?_, ?_⟩
      · intro collab q
        exact query_auth_error collab (run st₁ ops) (some w) q _ h₃
      · intro extract fn bytes
        exact upload_auth_error extract (run st₁ ops) (some w) fn bytes _ h₃
      · intro p st₂ m₂ hsign
        obtain ⟨hst₂, _⟩ := sign_ok_elim hsign
        subst hst₂
        exact get_current_user_intro _ w hne
          (hasUser_users_append_self (run st₁ ops) (run st₁ ops).users w p)

/-- C4 witness: after "alice" deregisters, a later query with the old
cookie fails 401 even after an unrelated user registered meanwhile. -/
theorem C4_witness :
    query (fun _ _ => .ok (.str ("A".data)))
        (run ⟨[], []⟩ [Op.sign ⟨"bob".data, "pw".data⟩])
        (some ("alice".data)) ("q".data)
      = .error ⟨401, "유효하지 않은 사용자입니다.".data⟩ :=
  (C4_token_invalid_after_deregistration
      ⟨[⟨"alice".data, "pw".data⟩], [("alice".data, "T".data)]⟩ ("alice".data)
      ⟨[], []⟩
      ("회원 탈퇴가 완료되었습니다. 데이터가 안전하게 파기되었습니다.".data) rfl
      [Op.sign ⟨"bob".data, "pw".data⟩] (by decide)).1
    (fun _ _ => .ok (.str ("A".data))) ("q".data)

/-- C5: in every state reachable from process start, a Document Context
for a username exists only if an Identity with that username exists;
and after deregistering u from a reachable state and re-registering u,
query for u fails with NoContext before any new upload — the old
context is gone, not inherited. -/
theorem C5_context_requires_identity :
    (∀ ops : List Op, ctxOwned (run initState ops)) ∧
    (∀ (ops : List Op) (u : PyStr) (st₁ : ServerState) (m : PyStr),
      cancel_membership (run initState ops) (some u) = (st₁, .ok m) →
      ∀ (p : PyStr) (st₂ : ServerState) (m₂ : PyStr),
        sign st₁ ⟨u, p⟩ = (st₂, .ok m₂) →
        ∀ collab q, query collab st₂ (some u) q =
          .error ⟨400, "먼저 고대 문서를 업로드해주세요.".data⟩) := by
  constructor
  · exact fun ops => (goodState_reachable ops).1
  · intro ops u st₁ m hcancel p st₂ m₂ hsign collab q
    cases hgcu : get_current_user (run initState ops) (some u) with
    | error e =>
        rw [cancel_auth_error _ (some u) e hgcu] at hcancel
        exact absurd (congrArg Prod.snd hcancel) (by simp)
    | ok w =>
        obtain ⟨hc, hne, _⟩ := get_current_user_ok hgcu
        have hwu : w = u := (Option.some.inj hc).symm
        subst hwu
        rw [cancel_ok _ (some w) w hgcu] at hcancel
        have hst₁ : st₁ =
            ({ users := (run initState ops).users.filter
                 (fun v => !(v.username == w)),
               user_contexts :=
                 eraseKey w (run initState ops).user_contexts } :
              ServerState) :=
          (congrArg Prod.fst hcancel).symm
        obtain ⟨hst₂, _⟩ := sign_ok_elim hsign
        subst hst₂
        have hauth : get_current_user
            ({ st₁ with users := st₁.users ++ [⟨w, p⟩] }) (some w) = .ok w :=
          get_current_user_intro _ w hne
            (hasUser_users_append_self st₁ st₁.users w p)
        have hnd : ((run initState ops).user_contexts.map Prod.fst).Nodup :=
          (goodState_reachable ops).2
        have hl : lookupKey w
            (({ st₁ with users := st₁.users ++ [⟨w, p⟩] } :
              ServerState)).user_contexts
            = none := by
          show lookupKey w st₁.user_contexts = none
          rw [hst₁]
          exact lookupKey_eraseKey_self w _ hnd
        exact query_no_context collab _ (some w) q w hauth hl

/-- C5 witness: register, upload, deregister, re-register — the query
then fails with NoContext. -/
theorem C5_witness :
    query (fun _ _ => .ok (.str ("A".data)))
        ⟨[⟨"alice".data, "pw2".data⟩], []⟩ (some ("alice".data)) ("q".data)
      = .error ⟨400, "먼저 고대 문서를 업로드해주세요.".data⟩ :=
  C5_context_requires_identity.2
    [Op.sign ⟨"alice".data, "pw".data⟩,
     Op.upload (some ("alice".data)) (some ("a.pdf".data)) [1]
       (fun _ => .ok ("T".data))]
    ("alice".data) ⟨[], []⟩
    ("회원 탈퇴가 완료되었습니다. 데이터가 안전하게 파기되었습니다.".data) rfl
    ("pw2".data) ⟨[⟨"alice".data, "pw2".data⟩], []⟩
    ("환영합니다, ".data ++ "alice".data ++ "님! 고대 언어 연구소 가입 완료.".data)
    rfl (fun _ _ => .ok (.str ("A".data))) ("q".data)


/-- C6 (counterexample): after a successful upload whose extracted text
is the empty string, query does not forward anything to the answering
collaborator — it fails with the NoContext error — so "for every stored
Document Context C, query forwards (q, C)" is false at C = "". -/
theorem C6_counterexample :
    (upload (fun _ => .ok []) ⟨[⟨"alice".data, "pw".data⟩], []⟩
        (some ("alice".data)) (some ("a.pdf".data)) [1]).2
      = .ok { ok := true, user := "alice".data,
              message := "고대 문서가 성공적으로 해독(Markdown 변환)되었습니다.".data,
              text_length := 0, preview := "...".data } ∧
    query (fun qq cc => .ok (.obj [(qq, .str cc)]))
        (upload (fun _ => .ok []) ⟨[⟨"alice".data, "pw".data⟩], []⟩
            (some ("alice".data)) (some ("a.pdf".data)) [1]).1
        (some ("alice".data)) ("q".data)
      = .error ⟨400, "먼저 고대 문서를 업로드해주세요.".data⟩ :=
  ⟨rfl, rfl⟩

/-- C6 (amended): after a successful upload by identity u whose
extracted text T is non-empty, query(u, q) reads exactly T — the text
installed by that most recent upload — and hands the pair (q, T) to the
answering collaborator via llm_response; whenever the collaborator
answers with payload j, the response carries j unchanged. -/
theorem C6_amended (extract : List Nat → Except PyStr PyStr)
    (collab : PyStr → PyStr → Except PyStr Json)
    (st : ServerState) (cookie fn : Option PyStr) (bytes : List Nat)
    (q u T : PyStr)
    (hu : get_current_user st cookie = .ok u)
    (hfn : pyEndsWith (pyLower (fn.getD [])) ".pdf".data = true)
    (hb : bytes.isEmpty = false)
    (hex : extract bytes = .ok T) (hne : T ≠ []) :
    query collab (upload extract st cookie fn bytes).1 cookie q =
      .ok { ok := true, user := u, query := q,
            result := llm_response collab q T } ∧
    (∀ j, collab q T = .ok j →
      query collab (upload extract st cookie fn bytes).1 cookie q =
        .ok { ok := true, user := u, query := q, result := j }) := by
  have h₁ : (upload extract st cookie fn bytes).1 =
      { st with user_contexts := insertKey u T st.user_contexts } := by
    rw [upload_ok_eq extract st cookie fn bytes u T hu hfn hb hex]
  obtain ⟨hc, hne₂, hhas⟩ := get_current_user_ok hu
  subst hc
  have hauth : get_current_user
      ({ st with user_contexts := insertKey u T st.user_contexts })
      (some u) = .ok u :=
    get_current_user_intro _ u hne₂ hhas
  have hl : lookupKey u
      (({ st with user_contexts := insertKey u T st.user_contexts } :
        ServerState)).user_contexts = some T :=
    lookupKey_insertKey_self u T st.user_contexts
  constructor
  · rw [h₁]
    exact query_ok collab _ (some u) q u T hauth hl hne
  · intro j hj
    rw [h₁, query_ok collab _ (some u) q u T hauth hl hne,
        llm_response_ok collab q T j hj]

/-- C6 witness: with a capturing collaborator, query after uploading
"DOC" returns a payload built from exactly the question and "DOC". -/
theorem C6_witness :
    query (fun qq cc => .ok (.obj [(qq, .str cc)]))
        (upload (fun _ => .ok ("DOC".data))
            ⟨[⟨"alice".data, "pw".data⟩], []⟩
            (some ("alice".data)) (some ("a.pdf".data)) [1]).1
        (some ("alice".data)) ("q".data)
      = .ok { ok := true, user := "alice".data, query := "q".data,
              result := .obj [("q".data, .str ("DOC".data))] } :=
  (C6_amended (fun _ => .ok ("DOC".data))
      (fun qq cc => .ok (.obj [(qq, .str cc)]))
      ⟨[⟨"alice".data, "pw".data⟩], []⟩ (some ("alice".data))
      (some ("a.pdf".data)) [1] ("q".data) ("alice".data) ("DOC".data)
      rfl rfl rfl rfl (by simp)).2
    (.obj [("q".data, .str ("DOC".data))]) rfl

/-- C7 (counterexample): an identity whose stored Document Context is
the empty string gets a hard 400 failure from query even when the
collaborator is unreachable (always errors) — "query does not fail"
does not hold for every identity that has a Document Context. -/
theorem C7_counterexample :
    lookupKey ("alice".data)
        (ServerState.user_contexts
          ⟨[⟨"alice".data, "pw".data⟩], [("alice".data, [])]⟩)
      = some [] ∧
    query (fun _ _ => .error ("Connection refused".data))
        ⟨[⟨"alice".data, "pw".data⟩], [("alice".data, [])]⟩
        (some ("alice".data)) ("q".data)
      = .error ⟨400, "먼저 고대 문서를 업로드해주세요.".data⟩ :=
  ⟨rfl, rfl⟩

/-- C7 (amended): for an identity with a non-empty stored Document
Context, when the answering collaborator fails with detail e, query
does not fail: it returns the success-shaped response whose result is
an object with an `answer` field holding the apology string with e
appended in parentheses. -/
theorem C7_amended (collab : PyStr → PyStr → Except PyStr Json)
    (st : ServerState) (cookie : Option PyStr) (q u C e : PyStr)
    (hu : get_current_user st cookie = .ok u)
    (hl : lookupKey u st.user_contexts = some C) (hne : C ≠ [])
    (he : collab q C = .error e) :
    query collab st cookie q =
      .ok { ok := true, user := u, query := q,
            result := .obj [("answer".data,
              .str ("죄송합니다. 인공지능 모델 서버에 연결할 수 없습니다. (".data
                ++ e ++ ")".data))] } := by
  rw [query_ok collab st cookie q u C hu hl hne,
      llm_response_error collab q C e he]
  rfl

/-- C7 witness: with an unreachable collaborator, query returns the
success-shaped apology payload carrying the error detail. -/
theorem C7_witness :
    query (fun _ _ => .error ("Connection refused".data))
        ⟨[⟨"alice".data, "pw".data⟩], [("alice".data, "DOC".data)]⟩
        (some ("alice".data)) ("q".data)
      = .ok { ok := true, user := "alice".data, query := "q".data,
              result := .obj [("answer".data,
                .str ("죄송합니다. 인공지능 모델 서버에 연결할 수 없습니다. (".data
                  ++ "Connection refused".data ++ ")".data))] } :=
  C7_amended (fun _ _ => .error ("Connection refused".data))
    ⟨[⟨"alice".data, "pw".data⟩], [("alice".data, "DOC".data)]⟩
    (some ("alice".data)) ("q".data) ("alice".data) ("DOC".data)
    ("Connection refused".data) rfl rfl (by simp) rfl

end AncientLang
